import Mathlib

/-!
Verification development for the remote-server authorization and
request-forwarding proxy of the desktop application:
`apps/desktop/src/main/controllers/RemoteServerSyncCtr.ts` (containing the
sync proxy handler, the `AuthCtr` OAuth controller and the
`RemoteServerConfigCtr` credential store) and
`apps/desktop/src/main/core/NetworkInterceptor.ts`.

The embedding is a shallow one: the mutable controller state becomes an
explicit state record, the external collaborators (`safeStorage`, the token
endpoint, the forwarded fetches) become explicit parameters describing their
outcome, and each controller method becomes a pure function from state and
collaborator outcomes to a result record (return value, new state, emitted
broadcast events, number of network calls performed).
-/

/-- JavaScript truthiness of a `string | null | undefined` value: `null`,
`undefined` and the empty string are falsy. -/
def jsTruthy (o : Option String) : Bool :=
  match o with
  | none => false
  | some s => !(s == "")

/-- JavaScript `a || b` for `a : string | undefined` and a string `b`. -/
def jsOr (a : Option String) (b : String) : String :=
  match a with
  | none => b
  | some s => if s == "" then b else s

/-- JavaScript `a || b || two-string fallback` used for
`errorData.error_description || errorData.error || two quotes`. -/
def jsOr2 (a b : Option String) : String :=
  jsOr a (jsOr b "")

/-- Broadcast notifications sent to renderer windows
(`broadcastTokenRefreshed`, `broadcastAuthorizationSuccessful`,
`broadcastAuthorizationFailed`, `broadcastAuthorizationRequired`). -/
inductive Event where
  | tokenRefreshed
  | authorizationSuccessful
  | authorizationFailed (msg : String)
  | authorizationRequired
  deriving DecidableEq

/-- The platform secure-credential capability (`safeStorage`).
`available` is `safeStorage.isEncryptionAvailable()`; `encrypt s` models
`Buffer.from(safeStorage.encryptString(s)).toString(base64)`; `decrypt`
models base64-decoding followed by `safeStorage.decryptString`, returning
`none` when decryption throws. -/
structure Crypto where
  available : Bool
  encrypt : String → String
  decrypt : String → Option String

/-- The mutable state owned by `RemoteServerConfigCtr`: the persisted
configuration (`isRemoteServerActive`, `remoteServerUrl`, with the store
defaults `false` and the empty string baked in), the in-memory encrypted
tokens, and the single-flight refresh flag. -/
structure SysState where
  isRemoteServerActive : Bool
  remoteServerUrl : String
  encryptedAccessToken : Option String
  encryptedRefreshToken : Option String
  isRefreshing : Bool
  deriving DecidableEq

/-- `RemoteServerConfigCtr.saveTokens`: stores the raw tokens when the
secure-credential capability is unavailable, the encrypted tokens
otherwise. -/
def saveTokens (c : Crypto) (accessToken refreshToken : String) (st : SysState) : SysState :=
  if c.available = false then
    { st with encryptedAccessToken := some accessToken,
              encryptedRefreshToken := some refreshToken }
  else
    { st with encryptedAccessToken := some (c.encrypt accessToken),
              encryptedRefreshToken := some (c.encrypt refreshToken) }

/-- `RemoteServerConfigCtr.getAccessToken`: returns `null` when the stored
field is falsy (absent or the empty string), the raw value when the
capability is unavailable, and the decryption result otherwise (`null` when
decryption throws). -/
def getAccessToken (c : Crypto) (st : SysState) : Option String :=
  match st.encryptedAccessToken with
  | none => none
  | some s =>
    if s == "" then none
    else if c.available = false then some s
    else c.decrypt s

/-- `RemoteServerConfigCtr.getRefreshToken`: same shape as
`getAccessToken` over the refresh-token field. -/
def getRefreshToken (c : Crypto) (st : SysState) : Option String :=
  match st.encryptedRefreshToken with
  | none => none
  | some s =>
    if s == "" then none
    else if c.available = false then some s
    else c.decrypt s

/-- `RemoteServerConfigCtr.clearTokens`. -/
def clearTokens (st : SysState) : SysState :=
  { st with encryptedAccessToken := none, encryptedRefreshToken := none }

/-- Parsed JSON body of a token-endpoint response, with absent fields as
`none`; used both for the success fields and the error fields. -/
structure TokenJson where
  access_token : Option String
  refresh_token : Option String
  error : Option String
  error_description : Option String
  deriving DecidableEq

/-- Outcome of one `fetch` to the token endpoint: either the call throws
(network error), or it returns a response with `ok`, `status`,
`statusText` and a JSON body (a body that fails to parse is modelled by
the all-`none` record, matching the `.catch` fallback to an empty
object). -/
inductive FetchOut where
  | throwErr (msg : String)
  | ret (ok : Bool) (status : Nat) (statusText : String) (json : TokenJson)
  deriving DecidableEq

/-- The error message built for a non-2xx token-endpoint response. -/
def httpErrMsg (head : String) (status : Nat) (statusText : String) (j : TokenJson) : String :=
  head ++ ": " ++ toString status ++ " " ++ statusText ++ " " ++ jsOr2 j.error_description j.error

/-- Result of `AuthCtr.refreshAccessToken`: the returned
`{success, error?}` value, the final state, the broadcasts emitted, and
how many network calls to the token endpoint were made. -/
structure ROut where
  success : Bool
  error : Option String
  state : SysState
  events : List Event
  netCalls : Nat
  deriving DecidableEq

/-- The catch block of `AuthCtr.refreshAccessToken`: clears the tokens,
re-writes the configuration with `isRemoteServerActive := false` and the
re-read (hence unchanged) `remoteServerUrl`, and broadcasts
`authorizationRequired`. -/
def refreshFailure (st : SysState) (msg : String) (n : Nat) : ROut :=
  { success := false, error := some msg,
    state := { st with encryptedAccessToken := none,
                       encryptedRefreshToken := none,
                       isRemoteServerActive := false },
    events := [Event.authorizationRequired],
    netCalls := n }

/-- The try/catch body of `AuthCtr.refreshAccessToken` (the `finally`
clause is applied on top by `refreshAccessToken`): rejects when a refresh
is already in flight, marks the flag, validates the configuration
(the source reads `config.isRemoteServerActive` and
`config.remoteServerUrl` from `RemoteServerConfigCtr`), requires a truthy
refresh token, performs the token-endpoint call, and on success saves the
new pair (falling back to the old refresh token when none is issued) and
broadcasts `tokenRefreshed`; every thrown error lands in
`refreshFailure`. -/
def refreshAccessTokenTry (c : Crypto) (net : FetchOut) (st : SysState) : ROut :=
  if st.isRefreshing then
    { success := false, error := some "Token refresh already in progress",
      state := st, events := [], netCalls := 0 }
  else
    let st1 := { st with isRefreshing := true }
    if st1.remoteServerUrl == "" || !st1.isRemoteServerActive then
      refreshFailure st1 "Remote server not active" 0
    else if jsTruthy (getRefreshToken c st1) = false then
      refreshFailure st1 "No refresh token available" 0
    else
      let refreshToken := (getRefreshToken c st1).getD ""
      match net with
      | .throwErr msg => refreshFailure st1 msg 1
      | .ret ok status statusText j =>
        if ok = false then
          refreshFailure st1 (httpErrMsg "刷新令牌失败" status statusText j) 1
        else if jsTruthy j.access_token = false then
          refreshFailure st1 "Invalid token response: missing required fields" 1
        else
          { success := true, error := none,
            state := saveTokens c (j.access_token.getD "") (jsOr j.refresh_token refreshToken) st1,
            events := [Event.tokenRefreshed],
            netCalls := 1 }

/-- `AuthCtr.refreshAccessToken`: the try/catch body followed by the
`finally` clause, which sets the refreshing flag to `false` on every exit
path, including the already-in-progress early return. -/
def refreshAccessToken (c : Crypto) (net : FetchOut) (st : SysState) : ROut :=
  let r := refreshAccessTokenTry c net st
  { r with state := { r.state with isRefreshing := false } }

/-- Result of `RemoteServerSyncCtr.refreshTokenIfNeeded`. -/
structure RtnOut where
  success : Bool
  state : SysState
  events : List Event
  netCalls : Nat
  deriving DecidableEq

/-- `RemoteServerSyncCtr.refreshTokenIfNeeded`: when a refresh is already
in flight it waits a fixed delay and reports success without touching
state. Otherwise it reads the configuration and tests `!config.active`;
`getRemoteServerConfig` returns a record with the fields
`isRemoteServerActive` and `remoteServerUrl` and no `active` field, so
`config.active` is undefined, the test holds in every state, and the
function reports failure. The call to
`remoteServerConfigCtr.refreshAccessToken()` further down the source is
therefore unreachable (nor does `RemoteServerConfigCtr` have such a
method). -/
def refreshTokenIfNeeded (st : SysState) : RtnOut :=
  if st.isRefreshing then
    { success := true, state := st, events := [], netCalls := 0 }
  else
    { success := false, state := st, events := [], netCalls := 0 }

/-! ### String and URL helpers

The handler and the auth controller use `String.prototype.includes`, the
WHATWG `URL` parser (`pathname`, `search`, relative resolution against the
remote origin) and `URLSearchParams.get`. These are modelled below over
character lists, covering the plain URL shapes the subsystem handles (no
percent-escapes). -/

/-- Whether the second list is an initial segment of the first. -/
def listStarts : List Char → List Char → Bool
  | _, [] => true
  | [], _ :: _ => false
  | a :: as, b :: bs => a == b && listStarts as bs

/-- Whether the second list occurs as a contiguous run inside the first. -/
def listContains (s sub : List Char) : Bool :=
  match s with
  | [] => sub.isEmpty
  | _ :: tl => listStarts s sub || listContains tl sub

/-- `String.prototype.includes`: substring containment over the whole
string. -/
def strIncludes (s sub : String) : Bool :=
  listContains s.toList sub.toList

/-- Drops everything up to and including the first scheme separator. -/
def afterSchemeSep : List Char → List Char
  | ':' :: '/' :: '/' :: rest => rest
  | _ :: tl => afterSchemeSep tl
  | [] => []

/-- `URL.pathname` (without the query or fragment) of an absolute URL. -/
def pathChars (cs : List Char) : List Char :=
  ((afterSchemeSep cs).dropWhile (fun c => !(c == '/'))).takeWhile
    (fun c => !(c == '?' || c == '#'))

/-- `URL.search` of an absolute URL, leading question mark included. -/
def searchChars (cs : List Char) : List Char :=
  ((afterSchemeSep cs).dropWhile (fun c => !(c == '?'))).takeWhile (fun c => !(c == '#'))

/-- `URL.pathname` as a string. -/
def urlPathname (s : String) : String :=
  ⟨pathChars s.toList⟩

/-- Splits a character list at every occurrence of the separator. -/
def splitOnChar (sep : Char) (cs : List Char) : List (List Char) :=
  cs.foldr
    (fun c acc =>
      if c == sep then [] :: acc
      else
        match acc with
        | g :: gs => (c :: g) :: gs
        | [] => [[c]])
    [[]]

/-- `new URLSearchParams(url.search).get(key)`: the value of the first
query segment whose name equals the key, `none` when no segment has that
name, and the empty string for a valueless segment. -/
def getParam (url key : String) : Option String :=
  let q := (searchChars url.toList).drop 1
  let segs := splitOnChar '&' q
  match segs.find? (fun seg => seg.takeWhile (fun c => !(c == '=')) == key.toList) with
  | none => none
  | some seg => some ⟨(seg.dropWhile (fun c => !(c == '='))).drop 1⟩

/-- Success of `new URL(callbackUrl)`: the URLs this subsystem receives
are absolute ones with a scheme separator; anything else makes the
constructor throw. -/
def urlParseOk (s : String) : Bool :=
  strIncludes s "://"

/-! ### The request-forwarding proxy (`RemoteServerSyncCtr`) -/

/-- The intercepted request as seen by the custom request handler. -/
structure Request where
  url : String
  method : String
  body : String
  deriving DecidableEq

/-- A response from a forwarded fetch. -/
structure Response where
  status : Nat
  body : String
  deriving DecidableEq

/-- One outbound forwarded attempt: target URL, method, body and the
bearer token placed in the Authorization header. -/
structure OutboundReq where
  url : String
  method : String
  body : String
  auth : String
  deriving DecidableEq

/-- Result of one handler invocation: the `Response | null` returned to
the interception framework, the final state, the outbound forwarded
attempts in order, and the broadcasts emitted along the way. -/
structure HOut where
  result : Option Response
  state : SysState
  fwdReqs : List OutboundReq
  events : List Event
  deriving DecidableEq

/-- The fixed list of proxied prefixes (`trpcProxyPath` in the source). -/
def trpcProxyPath : List String :=
  ["/trpc/lambda", "/trpc/tools", "/trpc/async"]

/-- The custom request handler registered by
`RemoteServerSyncCtr.registerApiRequestHandler`. A request whose full URL
string contains none of the proxied prefixes is not handled (null). A
matching request reads the remote-server configuration and then hits
the check `if (!config.active || !config.remoteServerUrl) return null`;
`getRemoteServerConfig` returns a record with the fields
`isRemoteServerActive` and `remoteServerUrl` and no `active` field, so
`config.active` is undefined, `!config.active` holds in every state, and
the handler returns null here as well. The token lookup, the rewrite to
the remote origin, the forward and the 401 refresh-and-retry further down
the source are unreachable, so no invocation modifies state, emits a
broadcast or issues an outbound request. -/
def handler (st : SysState) (req : Request) : HOut :=
  if (trpcProxyPath.any (fun p => strIncludes req.url p)) = false then
    { result := none, state := st, fwdReqs := [], events := [] }
  else
    { result := none, state := st, fwdReqs := [], events := [] }

/-! ### The OAuth callback (`AuthCtr.handleAuthCallback`) -/

/-- The pending PKCE authorization held by `AuthCtr`: the code verifier
and the anti-CSRF state value, both `null` when no authorization is
pending. -/
structure AuthState where
  codeVerifier : Option String
  authRequestState : Option String
  deriving DecidableEq

/-- Result of `AuthCtr.handleAuthCallback`: the returned
`{success, error?}` value, the final store state, the pending
authorization on exit, the broadcasts, and the number of token-endpoint
calls. -/
structure CbOut where
  success : Bool
  error : Option String
  state : SysState
  auth : AuthState
  events : List Event
  netCalls : Nat
  deriving DecidableEq

/-- `AuthCtr.exchangeCodeForToken`: posts the code and verifier to the
token endpoint; a non-2xx response or a body missing either token is a
failure caught internally; on success the tokens are saved and the
configuration set active with the server URL. -/
def exchangeCodeForToken (c : Crypto) (net : FetchOut) (serverUrl _code _codeVerifier : String)
    (st : SysState) : (Bool × Option String) × SysState :=
  match net with
  | .throwErr msg => ((false, some msg), st)
  | .ret ok status statusText j =>
    if ok = false then
      ((false, some (httpErrMsg "获取令牌失败" status statusText j)), st)
    else if jsTruthy j.access_token = false || jsTruthy j.refresh_token = false then
      ((false, some "Invalid token response: missing required fields"), st)
    else
      let st2 := saveTokens c (j.access_token.getD "") (j.refresh_token.getD "") st
      ((true, none),
       { st2 with isRemoteServerActive := true, remoteServerUrl := serverUrl })

/-- The try/catch body of `AuthCtr.handleAuthCallback` (the `finally`
clause clearing the pending authorization is applied on top by
`handleAuthCallback`): parses the callback URL, reads the `code` and
`state` parameters, rejects a state mismatch, a falsy code, a missing
server URL and a falsy stored verifier, then exchanges the code; success
broadcasts `authorizationSuccessful`, every failure broadcasts
`authorizationFailed` with the error message. -/
def handleAuthCallbackTry (c : Crypto) (net : FetchOut) (st : SysState) (auth : AuthState)
    (callbackUrl : String) : CbOut :=
  let failWith := fun (msg : String) =>
    { success := false, error := some msg, state := st, auth := auth,
      events := [Event.authorizationFailed msg], netCalls := 0 : CbOut }
  if urlParseOk callbackUrl = false then
    failWith "Invalid URL"
  else
    let code := getParam callbackUrl "code"
    let stateParam := getParam callbackUrl "state"
    if stateParam ≠ auth.authRequestState then
      failWith "Invalid state parameter"
    else if jsTruthy code = false then
      failWith "No authorization code received"
    else if st.remoteServerUrl == "" then
      failWith "No server URL configured"
    else if jsTruthy auth.codeVerifier = false then
      failWith "No code verifier found"
    else
      let r := exchangeCodeForToken c net st.remoteServerUrl (code.getD "")
        (auth.codeVerifier.getD "") st
      if r.1.1 then
        { success := true, error := none, state := r.2, auth := auth,
          events := [Event.authorizationSuccessful], netCalls := 1 }
      else
        { success := false, error := r.1.2, state := r.2, auth := auth,
          events := [Event.authorizationFailed (jsOr r.1.2 "Unknown error")], netCalls := 1 }

/-- `AuthCtr.handleAuthCallback`: the try/catch body followed by the
`finally` clause, which sets both pending fields to `null` on every exit
path. -/
def handleAuthCallback (c : Crypto) (net : FetchOut) (st : SysState) (auth : AuthState)
    (callbackUrl : String) : CbOut :=
  let r := handleAuthCallbackTry c net st auth callbackUrl
  { r with auth := { codeVerifier := none, authRequestState := none } }

/-! ### PKCE code verifier (`AuthCtr.generateCodeVerifier`)

`crypto.randomBytes(32).toString(base64)` followed by replacing plus with
minus, slash with underscore, and stripping trailing equals signs. The
random bytes are a parameter; the base64 encoder is the standard one used
by `Buffer.toString`. -/

/-- The standard base64 alphabet. -/
def b64chars : List Char :=
  "ABCDEFGHIJKLMNOPQRSTUVWXYZabcdefghijklmnopqrstuvwxyz0123456789+/".toList

/-- The alphabet character of a sextet. -/
def b64char (n : Nat) : Char :=
  b64chars.getD n 'A'

/-- Membership in the standard base64 alphabet. -/
def isB64Char (ch : Char) : Bool :=
  ch.isAlphanum || ch == '+' || ch == '/'

/-- Padded base64 encoding of a byte list, three bytes to four
characters, as produced by `Buffer.toString(base64)`. -/
def encodeB64 : List Nat → List Char
  | a :: b :: c :: rest =>
    b64char (a / 4) :: b64char (a % 4 * 16 + b / 16) ::
      b64char (b % 16 * 4 + c / 64) :: b64char (c % 64) :: encodeB64 rest
  | [a, b] => [b64char (a / 4), b64char (a % 4 * 16 + b / 16), b64char (b % 16 * 4), '=']
  | [a] => [b64char (a / 4), b64char (a % 4 * 16), '=', '=']
  | [] => []

/-- The two `replaceAll` calls of `generateCodeVerifier`. -/
def urlSafe (ch : Char) : Char :=
  if ch == '+' then '-' else if ch == '/' then '_' else ch

/-- The URL-safe base64 alphabet the spec requires of a code verifier. -/
def isUrlSafeChar (ch : Char) : Bool :=
  ch.isAlphanum || ch == '-' || ch == '_'

/-- The final `replace` of `generateCodeVerifier`, removing the maximal
run of trailing equals signs. -/
def stripTrailingEquals (cs : List Char) : List Char :=
  (cs.reverse.dropWhile (fun ch => ch == '=')).reverse

/-- `AuthCtr.generateCodeVerifier` as a function of the 32 random bytes. -/
def generateCodeVerifier (bytes : List Nat) : List Char :=
  stripTrailingEquals ((encodeB64 bytes).map urlSafe)

theorem b64char_valid (n : Nat) (h : n < 64) : isB64Char (b64char n) = true := by
  have hall : ∀ m : Fin 64, isB64Char (b64char m.val) = true := by decide
  exact hall ⟨n, h⟩

theorem urlSafe_valid (ch : Char) (h : isB64Char ch = true) :
    isUrlSafeChar (urlSafe ch) = true := by
  unfold isB64Char at h
  unfold urlSafe isUrlSafeChar
  by_cases h1 : ch == '+'
  · simp [h1]
  · by_cases h2 : ch == '/'
    · simp [h1, h2]
    · simp [h1, h2] at h ⊢
      exact Or.inl (Or.inl h)

theorem urlSafeChar_ne_eq (ch : Char) (h : isUrlSafeChar ch = true) : (ch == '=') = false := by
  by_cases he : ch = '='
  · subst he
    simp [isUrlSafeChar] at h
  · simpa using he

/-- Encoding a byte list whose length is two more than a multiple of
three yields a block of alphabet characters followed by a single padding
character. -/
theorem encodeB64_chunk :
    ∀ (k : Nat) (l : List Nat), l.length = 3 * k + 2 → (∀ x ∈ l, x < 256) →
      ∃ cs, encodeB64 l = cs ++ ['='] ∧ cs.length = 4 * k + 3 ∧
        ∀ ch ∈ cs, isB64Char ch = true := by
  intro k
  induction k with
  | zero =>
    intro l hlen hb
    match l, hlen with
    | [a, b], _ =>
      have ha : a < 256 := hb a (by simp)
      have hbb : b < 256 := hb b (by simp)
      refine ⟨[b64char (a / 4), b64char (a % 4 * 16 + b / 16), b64char (b % 16 * 4)],
        rfl, rfl, ?_⟩
      intro ch hch
      simp only [List.mem_cons, List.not_mem_nil, or_false] at hch
      rcases hch with h | h | h <;> subst h <;> exact b64char_valid _ (by omega)
  | succ k ih =>
    intro l hlen hb
    match l, hlen with
    | a :: b :: c :: rest, hlen =>
      have hrest : rest.length = 3 * k + 2 := by
        simp only [List.length_cons] at hlen
        omega
      obtain ⟨cs, hcs, hcslen, hcsmem⟩ := ih rest hrest (fun x hx => hb x (by simp [hx]))
      have ha : a < 256 := hb a (by simp)
      have hbb : b < 256 := hb b (by simp)
      have hc : c < 256 := hb c (by simp)
      refine ⟨b64char (a / 4) :: b64char (a % 4 * 16 + b / 16) ::
        b64char (b % 16 * 4 + c / 64) :: b64char (c % 64) :: cs, ?_, ?_, ?_⟩
      · simp [encodeB64, hcs]
      · simp only [List.length_cons, hcslen]
        omega
      · intro ch hch
        simp only [List.mem_cons] at hch
        rcases hch with h | h | h | h | h
        · subst h; exact b64char_valid _ (by omega)
        · subst h; exact b64char_valid _ (by omega)
        · subst h; exact b64char_valid _ (by omega)
        · subst h; exact b64char_valid _ (by omega)
        · exact hcsmem ch h

/-- Stripping trailing padding from a block of non-padding characters
followed by one padding character returns the block. -/
theorem stripTrailingEquals_append (cs : List Char)
    (h : ∀ ch ∈ cs, (ch == '=') = false) :
    stripTrailingEquals (cs ++ ['=']) = cs := by
  unfold stripTrailingEquals
  rw [List.reverse_append]
  simp only [List.reverse_cons, List.reverse_nil, List.nil_append, List.singleton_append,
    List.dropWhile_cons]
  simp only [beq_self_eq_true, if_true]
  cases hrev : cs.reverse with
  | nil =>
    have : cs = [] := by simpa using congrArg List.reverse hrev
    simp [this, hrev, List.dropWhile_nil]
  | cons hd tl =>
    have hhd : hd ∈ cs := by
      have : hd ∈ cs.reverse := by simp [hrev]
      simpa using this
    have := h hd hhd
    rw [List.dropWhile_cons, this]
    simp only [Bool.false_eq_true, if_false]
    rw [← hrev, List.reverse_reverse]

/-! ### Concrete inputs used by witnesses and counterexamples -/

/-- A platform without the secure-credential capability; encryption and
decryption are never reached through it. -/
def plainCrypto : Crypto :=
  { available := false, encrypt := fun s => s, decrypt := fun s => some s }

/-- An idle inactive state with nothing stored. -/
def emptyState : SysState :=
  { isRemoteServerActive := false, remoteServerUrl := "",
    encryptedAccessToken := none, encryptedRefreshToken := none, isRefreshing := false }

/-- An active connected state holding both raw tokens. -/
def activeState : SysState :=
  { isRemoteServerActive := true, remoteServerUrl := "https://sync.example.com",
    encryptedAccessToken := some "AT1", encryptedRefreshToken := some "RT1",
    isRefreshing := false }

/-- A token-endpoint outcome that is never consumed in the scenario that
carries it. -/
def idleFetch : FetchOut :=
  FetchOut.throwErr "unused"

/-! ### C8 -/

/-- C8: every code verifier generated by `requestAuthorization` from 32
random bytes is a URL-safe base64 string of length at least 43, drawn
from the characters A-Z, a-z, 0-9, minus and underscore, with no padding
character. -/
theorem c8_code_verifier_shape (bytes : List Nat) (hlen : bytes.length = 32)
    (hb : ∀ x ∈ bytes, x < 256) :
    43 ≤ (generateCodeVerifier bytes).length ∧
      ∀ ch ∈ generateCodeVerifier bytes, isUrlSafeChar ch = true := by
  obtain ⟨cs, hcs, hcslen, hcsmem⟩ :=
    encodeB64_chunk 10 bytes (by omega) hb
  have hmapmem : ∀ ch ∈ cs.map urlSafe, isUrlSafeChar ch = true := by
    intro ch hch
    obtain ⟨ch0, hch0, rfl⟩ := List.mem_map.mp hch
    exact urlSafe_valid ch0 (hcsmem ch0 hch0)
  have hgen : generateCodeVerifier bytes = cs.map urlSafe := by
    unfold generateCodeVerifier
    rw [hcs, List.map_append]
    have : List.map urlSafe ['='] = ['='] := by decide
    rw [this]
    exact stripTrailingEquals_append _
      (fun ch hch => urlSafeChar_ne_eq ch (hmapmem ch hch))
  rw [hgen]
  refine ⟨?_, hmapmem⟩
  simp [hcslen]

/-- Witness for C8 at the all-zero byte string. -/
theorem c8_code_verifier_shape_witness :
    43 ≤ (generateCodeVerifier (List.replicate 32 0)).length ∧
      ∀ ch ∈ generateCodeVerifier (List.replicate 32 0), isUrlSafeChar ch = true :=
  c8_code_verifier_shape (List.replicate 32 0) (by decide) (by decide)

/-! ### C4, C7, C3: refreshAccessToken -/

/-- The guarded-refresh state used to exercise the in-progress guard. -/
def refreshingState : SysState :=
  { activeState with isRefreshing := true }

/-- The token fields do not depend on the refreshing flag. -/
theorem getRefreshToken_set_refreshing (c : Crypto) (st : SysState) (b : Bool) :
    getRefreshToken c { st with isRefreshing := b } = getRefreshToken c st := rfl

/-- C4: a call to `refreshAccessToken` that finds the refresh-in-progress
flag set returns the already-in-progress failure without a network call
and without touching tokens or configuration, yet its `finally` clause
still resets the flag to `false`, releasing the guard the in-flight
refresh had taken. -/
theorem c4_rejected_call_resets_guard (c : Crypto) (net : FetchOut) (st : SysState)
    (h : st.isRefreshing = true) :
    refreshAccessToken c net st =
      { success := false, error := some "Token refresh already in progress",
        state := { st with isRefreshing := false }, events := [], netCalls := 0 } := by
  unfold refreshAccessToken refreshAccessTokenTry
  simp [h]

/-- Witness for C4: a concurrent call rejected while a refresh is marked
in flight leaves the flag cleared. -/
theorem c4_rejected_call_resets_guard_witness :
    refreshAccessToken plainCrypto idleFetch refreshingState =
      { success := false, error := some "Token refresh already in progress",
        state := activeState, events := [], netCalls := 0 } :=
  c4_rejected_call_resets_guard plainCrypto idleFetch refreshingState rfl

/-- C7: with no refresh already in progress, the remote server active and
a server URL configured, a call with no stored refresh token fails with
the no-refresh-token error and performs no network call. -/
theorem c7_no_refresh_token (c : Crypto) (net : FetchOut) (st : SysState)
    (h1 : st.isRefreshing = false) (h2 : st.isRemoteServerActive = true)
    (h3 : (st.remoteServerUrl == "") = false) (h4 : getRefreshToken c st = none) :
    (refreshAccessToken c net st).success = false ∧
      (refreshAccessToken c net st).error = some "No refresh token available" ∧
      (refreshAccessToken c net st).netCalls = 0 := by
  have hrt : ∀ a f,
      getRefreshToken c
        ⟨a, st.remoteServerUrl, st.encryptedAccessToken, st.encryptedRefreshToken, f⟩ = none :=
    fun _ _ => h4
  unfold refreshAccessToken refreshAccessTokenTry
  simp [h1, h2, h3, hrt, jsTruthy, refreshFailure]

/-- Witness for C7: an active configured state with no stored refresh
token. -/
theorem c7_no_refresh_token_witness :
    (refreshAccessToken plainCrypto idleFetch
        { activeState with encryptedAccessToken := none, encryptedRefreshToken := none }).success
        = false ∧
      (refreshAccessToken plainCrypto idleFetch
        { activeState with encryptedAccessToken := none, encryptedRefreshToken := none }).error
        = some "No refresh token available" ∧
      (refreshAccessToken plainCrypto idleFetch
        { activeState with encryptedAccessToken := none, encryptedRefreshToken := none }).netCalls
        = 0 :=
  c7_no_refresh_token plainCrypto idleFetch
    { activeState with encryptedAccessToken := none, encryptedRefreshToken := none }
    rfl rfl (by decide) rfl

/-- C3 counterexample: a call that returns failure because a refresh is
already in progress leaves the tokens stored, the active flag set, and
broadcasts nothing, contradicting the claim that every failing
`refreshAccessToken` call clears the tokens, deactivates the server and
broadcasts `authorizationRequired`. -/
theorem c3_counterexample :
    (refreshAccessToken plainCrypto idleFetch refreshingState).success = false ∧
      (refreshAccessToken plainCrypto idleFetch refreshingState).state.isRemoteServerActive
        = true ∧
      (refreshAccessToken plainCrypto idleFetch refreshingState).state.encryptedAccessToken
        = some "AT1" ∧
      (refreshAccessToken plainCrypto idleFetch refreshingState).state.encryptedRefreshToken
        = some "RT1" ∧
      (refreshAccessToken plainCrypto idleFetch refreshingState).events = [] := by
  decide

/-- Any failing run of the try body that passed the in-progress guard is
one of the catch-block failures. -/
theorem refreshTry_failure_shape (c : Crypto) (net : FetchOut) (st : SysState)
    (hg : st.isRefreshing = false) :
    (refreshAccessTokenTry c net st).success = true ∨
      ∃ msg n, refreshAccessTokenTry c net st =
        refreshFailure { st with isRefreshing := true } msg n := by
  unfold refreshAccessTokenTry
  simp only [hg, Bool.false_eq_true, if_false]
  split
  · exact Or.inr ⟨_, _, rfl⟩
  · split
    · exact Or.inr ⟨_, _, rfl⟩
    · split
      · exact Or.inr ⟨_, _, rfl⟩
      · split
        · exact Or.inr ⟨_, _, rfl⟩
        · split
          · exact Or.inr ⟨_, _, rfl⟩
          · exact Or.inl rfl

/-- C3 (amended): every call to `refreshAccessToken` that passes the
refresh-already-in-progress guard and returns failure leaves
`active = false`, both tokens cleared, the server URL unchanged, and
exactly one `authorizationRequired` broadcast. -/
theorem c3_refresh_failure_cleanup (c : Crypto) (net : FetchOut) (st : SysState)
    (hg : st.isRefreshing = false)
    (hf : (refreshAccessToken c net st).success = false) :
    (refreshAccessToken c net st).state.isRemoteServerActive = false ∧
      (refreshAccessToken c net st).state.encryptedAccessToken = none ∧
      (refreshAccessToken c net st).state.encryptedRefreshToken = none ∧
      (refreshAccessToken c net st).state.remoteServerUrl = st.remoteServerUrl ∧
      (refreshAccessToken c net st).events = [Event.authorizationRequired] := by
  rcases refreshTry_failure_shape c net st hg with hs | ⟨msg, n, heq⟩
  · exfalso
    have : (refreshAccessToken c net st).success = (refreshAccessTokenTry c net st).success := rfl
    rw [this, hs] at hf
    exact Bool.true_eq_false.mp hf
  · unfold refreshAccessToken
    rw [heq]
    simp [refreshFailure]

/-- Witness for C3 (amended): a failing refresh from an inactive state
performs the full cleanup. -/
theorem c3_refresh_failure_cleanup_witness :
    (refreshAccessToken plainCrypto idleFetch emptyState).state.isRemoteServerActive = false ∧
      (refreshAccessToken plainCrypto idleFetch emptyState).state.encryptedAccessToken = none ∧
      (refreshAccessToken plainCrypto idleFetch emptyState).state.encryptedRefreshToken = none ∧
      (refreshAccessToken plainCrypto idleFetch emptyState).state.remoteServerUrl
        = emptyState.remoteServerUrl ∧
      (refreshAccessToken plainCrypto idleFetch emptyState).events
        = [Event.authorizationRequired] :=
  c3_refresh_failure_cleanup plainCrypto idleFetch emptyState rfl (by decide)

/-! ### C9: token round trip -/

/-- C9 counterexample: with the capability unavailable, saving an empty
access token and reading it back yields `null` rather than the saved
value, because the read treats the falsy empty string as absent. -/
theorem c9_counterexample :
    plainCrypto.available = false ∧
      getAccessToken plainCrypto (saveTokens plainCrypto "" "RT1" emptyState) = none ∧
      getAccessToken plainCrypto (saveTokens plainCrypto "" "RT1" emptyState) ≠ some "" := by
  decide

/-- C9 (amended): `saveTokens` followed by the two reads returns both
values unchanged whenever the capability is available, its decrypt
inverts its encrypt on them, and their encryptions are non-empty; and
likewise when the capability is unavailable and the raw stored values are
non-empty. -/
theorem c9_roundtrip (c : Crypto) (a r : String) (st : SysState)
    (hav : c.available = true →
      c.decrypt (c.encrypt a) = some a ∧ c.decrypt (c.encrypt r) = some r ∧
        (c.encrypt a == "") = false ∧ (c.encrypt r == "") = false)
    (hun : c.available = false → (a == "") = false ∧ (r == "") = false) :
    getAccessToken c (saveTokens c a r st) = some a ∧
      getRefreshToken c (saveTokens c a r st) = some r := by
  cases hc : c.available
  · obtain ⟨h1, h2⟩ := hun hc
    unfold getAccessToken getRefreshToken saveTokens
    simp [hc, h1, h2]
  · obtain ⟨d1, d2, n1, n2⟩ := hav hc
    unfold getAccessToken getRefreshToken saveTokens
    simp [hc, n1, n2, d1, d2]

/-- Witness for C9 at a platform without the capability and non-empty
tokens. -/
theorem c9_roundtrip_witness :
    getAccessToken plainCrypto (saveTokens plainCrypto "AT1" "RT1" emptyState) = some "AT1" ∧
      getRefreshToken plainCrypto (saveTokens plainCrypto "AT1" "RT1" emptyState) = some "RT1" :=
  c9_roundtrip plainCrypto "AT1" "RT1" emptyState
    (fun h => absurd h (by decide)) (fun _ => by decide)

/-! ### C5, C6, C10: handleAuthCallback -/

/-- C5: every execution of `handleAuthCallback`, whether it succeeds,
fails a validation check or throws, clears both the pending code verifier
and the pending state before returning, so a second delivery of the same
callback URL cannot reuse them. -/
theorem c5_pending_cleared (c : Crypto) (net : FetchOut) (st : SysState) (auth : AuthState)
    (url : String) :
    (handleAuthCallback c net st auth url).auth =
      { codeVerifier := none, authRequestState := none } := rfl

/-- C6: a callback URL carrying a `state` query parameter different from
the pending state value fails with the invalid-state error and never
reaches the token exchange. -/
theorem c6_invalid_state (c : Crypto) (net : FetchOut) (st : SysState) (auth : AuthState)
    (url : String) (s : String)
    (hvalid : urlParseOk url = true)
    (hs : getParam url "state" = some s)
    (hne : some s ≠ auth.authRequestState) :
    (handleAuthCallback c net st auth url).success = false ∧
      (handleAuthCallback c net st auth url).error = some "Invalid state parameter" ∧
      (handleAuthCallback c net st auth url).netCalls = 0 := by
  unfold handleAuthCallback handleAuthCallbackTry
  simp [hvalid, hs, hne]

/-- Witness for C6: a pending-free controller receiving a callback with a
stale state value. -/
theorem c6_invalid_state_witness :
    (handleAuthCallback plainCrypto idleFetch emptyState ⟨none, none⟩
        "lobe-chat-desktop://auth/callback?code=abc&state=S1").success = false ∧
      (handleAuthCallback plainCrypto idleFetch emptyState ⟨none, none⟩
        "lobe-chat-desktop://auth/callback?code=abc&state=S1").error
        = some "Invalid state parameter" ∧
      (handleAuthCallback plainCrypto idleFetch emptyState ⟨none, none⟩
        "lobe-chat-desktop://auth/callback?code=abc&state=S1").netCalls = 0 :=
  c6_invalid_state plainCrypto idleFetch emptyState ⟨none, none⟩
    "lobe-chat-desktop://auth/callback?code=abc&state=S1" "S1"
    (by decide) (by decide) (by decide)

/-- The callback URL of the C10 counterexample: a code but no state
parameter. -/
def c10Url : String :=
  "lobe-chat-desktop://auth/callback?code=abc"

/-- C10 counterexample: with no pending authorization and no state
parameter the call indeed passes the state comparison, but with a code
present and no server URL configured it fails with the no-server-URL
error, an outcome the claim does not list. -/
theorem c10_counterexample :
    getParam c10Url "state" = none ∧
      (handleAuthCallback plainCrypto idleFetch emptyState ⟨none, none⟩ c10Url).success
        = false ∧
      (handleAuthCallback plainCrypto idleFetch emptyState ⟨none, none⟩ c10Url).error
        = some "No server URL configured" ∧
      (handleAuthCallback plainCrypto idleFetch emptyState ⟨none, none⟩ c10Url).error
        ≠ some "No authorization code received" ∧
      (handleAuthCallback plainCrypto idleFetch emptyState ⟨none, none⟩ c10Url).error
        ≠ some "No code verifier found" := by
  decide

/-- C10 (amended): with no authorization pending, a parseable callback
URL with no state parameter passes the state comparison and fails later:
with the missing-code error when the code is falsy, with the
no-server-URL error when a code is present but no server URL is
configured, and with the no-code-verifier error when a code is present
and a server URL is configured — never with the invalid-state error. -/
theorem c10_no_pending_no_state (c : Crypto) (net : FetchOut) (st : SysState) (url : String)
    (hvalid : urlParseOk url = true)
    (hnostate : getParam url "state" = none) :
    (handleAuthCallback c net st ⟨none, none⟩ url).success = false ∧
      (handleAuthCallback c net st ⟨none, none⟩ url).error ≠ some "Invalid state parameter" ∧
      (jsTruthy (getParam url "code") = false →
        (handleAuthCallback c net st ⟨none, none⟩ url).error
          = some "No authorization code received") ∧
      (jsTruthy (getParam url "code") = true → (st.remoteServerUrl == "") = true →
        (handleAuthCallback c net st ⟨none, none⟩ url).error
          = some "No server URL configured") ∧
      (jsTruthy (getParam url "code") = true → (st.remoteServerUrl == "") = false →
        (handleAuthCallback c net st ⟨none, none⟩ url).error
          = some "No code verifier found") := by
  have hnone : jsTruthy none = false := rfl
  unfold handleAuthCallback handleAuthCallbackTry
  by_cases hc : jsTruthy (getParam url "code") = true
  · by_cases hu : (st.remoteServerUrl == "") = true
    · simp [hvalid, hnostate, hc, hu]
    · simp [hvalid, hnostate, hc, hu, hnone]
  · simp [hvalid, hnostate, hc]

/-- Witness for C10 (amended): an idle controller receiving a stateless,
codeless callback. -/
theorem c10_no_pending_no_state_witness :
    (handleAuthCallback plainCrypto idleFetch emptyState ⟨none, none⟩
        "lobe-chat-desktop://auth/callback?x=1").success = false ∧
      (handleAuthCallback plainCrypto idleFetch emptyState ⟨none, none⟩
        "lobe-chat-desktop://auth/callback?x=1").error ≠ some "Invalid state parameter" ∧
      (jsTruthy (getParam "lobe-chat-desktop://auth/callback?x=1" "code") = false →
        (handleAuthCallback plainCrypto idleFetch emptyState ⟨none, none⟩
          "lobe-chat-desktop://auth/callback?x=1").error
          = some "No authorization code received") ∧
      (jsTruthy (getParam "lobe-chat-desktop://auth/callback?x=1" "code") = true →
        (emptyState.remoteServerUrl == "") = true →
        (handleAuthCallback plainCrypto idleFetch emptyState ⟨none, none⟩
          "lobe-chat-desktop://auth/callback?x=1").error
          = some "No server URL configured") ∧
      (jsTruthy (getParam "lobe-chat-desktop://auth/callback?x=1" "code") = true →
        (emptyState.remoteServerUrl == "") = false →
        (handleAuthCallback plainCrypto idleFetch emptyState ⟨none, none⟩
          "lobe-chat-desktop://auth/callback?x=1").error
          = some "No code verifier found") :=
  c10_no_pending_no_state plainCrypto idleFetch emptyState
    "lobe-chat-desktop://auth/callback?x=1" (by decide) (by decide)

/-! ### C1, C2: the request-forwarding proxy -/

/-- A request that is not related to the proxied prefixes at all. -/
def plainReq : Request :=
  { url := "http://localhost:3015/favicon.ico", method := "GET", body := "" }

/-- A proxied-path request against an active, token-holding state, whose
forward the remote would answer with 401 if it were ever issued. -/
def c2Req : Request :=
  { url := "http://localhost:3015/trpc/lambda/x?y=1", method := "POST", body := "B" }

/-- C1: the proxy handles a request only if its path starts with one of
the fixed proxied prefixes, and every request whose path starts with none
of them is returned as not handled (null), with state untouched, no
outbound request and no broadcast, regardless of the active flag. (This
holds because the handler returns null for every intercepted request: a
non-matching URL fails the prefix check, and a matching one is stopped by
the always-true `!config.active` test.) -/
theorem c1_prefix_gate (st : SysState) (req : Request)
    (_h : trpcProxyPath.all
      (fun p => !(listStarts (urlPathname req.url).toList p.toList)) = true) :
    handler st req = { result := none, state := st, fwdReqs := [], events := [] } := by
  unfold handler
  split <;> rfl

/-- Witness for C1: an unrelated asset request passes through untouched
even while the configuration is active. -/
theorem c1_prefix_gate_witness :
    trpcProxyPath.all
      (fun p => !(listStarts (urlPathname plainReq.url).toList p.toList)) = true ∧
      handler activeState plainReq =
        { result := none, state := activeState, fwdReqs := [], events := [] } :=
  ⟨by decide, c1_prefix_gate activeState plainReq (by decide)⟩

/-- C2 (code bug): the refresh-and-retry the claim describes is written
in the source (a 401 response triggers one refresh and, on success, a
single reissue of the identical request) but is unreachable: the config
check tests `config.active`, a field `getRemoteServerConfig` never
returns, so every intercepted request — the proxied-path request
`c2Req` against the active `activeState` included — is returned as null
with no outbound attempt, no refresh and no state change. -/
theorem c2_forwarding_never_reached (st : SysState) (req : Request) :
    handler st req = { result := none, state := st, fwdReqs := [], events := [] } := by
  unfold handler
  split <;> rfl
